import Mathlib

/-!
Verification of the client-side data-access layer of the project-management
application (frontend/public/js/API.js): the resilient request client with
timeout control, bounded retries, a TTL cache, and error classification.

The JavaScript is embedded shallowly: the cache is an association list with
explicit timestamps, one `fetch` attempt is an oracle `Nat → FetchOutcome`
giving the outcome of each numbered attempt, thrown JavaScript errors are the
`JsError` structure threaded through `Except`, and `Date.now()` is an explicit
`now : Nat` parameter (milliseconds).
-/

set_option autoImplicit false

namespace GestorAPI

/-- A thrown JavaScript error: its `name` and `message` properties, which are
the only fields `handleRequestError` inspects. -/
structure JsError where
  name : String
  message : String
deriving DecidableEq

/-- The uniform result envelope returned by every public operation of
`ProjectAPI`: `{success:true, data, status}` or `{success:false, error, code}`.
Response payloads are kept opaque as their JSON text. -/
inductive Envelope where
  | success (data : String) (status : Nat)
  | failure (error : String) (code : String)
deriving DecidableEq

/-- One entry of `apiCache`: the stored envelope and its insertion timestamp,
as written by `setCachedData`. -/
structure CacheEntry where
  data : Envelope
  timestamp : Nat
deriving DecidableEq

/-- The `apiCache` map, embedded as an association list from cache keys to
entries (later bindings shadow none: `setCachedData` removes the old one). -/
abbrev Cache := List (String × CacheEntry)

/-- The `API_CONFIG` global of API.js. -/
structure APIConfig where
  timeout : Nat
  retryAttempts : Nat
  retryDelay : Nat

/-- `API_CONFIG`: timeout 10000 ms, 3 retry attempts, 1000 ms base delay. -/
def API_CONFIG : APIConfig := { timeout := 10000, retryAttempts := 3, retryDelay := 1000 }

/-- `CACHE_DURATION`: five minutes in milliseconds. -/
def CACHE_DURATION : Nat := 5 * 60 * 1000

/-- Decide whether `pat` is a leading segment of `l` (character lists). -/
def hasPre : List Char → List Char → Bool
  | [], _ => true
  | _ :: _, [] => false
  | c :: cs, d :: ds => c == d && hasPre cs ds

/-- Decide whether `pat` occurs contiguously anywhere inside `l`. -/
def hasSub (pat : List Char) : List Char → Bool
  | [] => hasPre pat []
  | c :: t => hasPre pat (c :: t) || hasSub pat t

/-- JavaScript `s.includes(pat)`. -/
def strIncludes (s pat : String) : Bool := hasSub pat.toList s.toList

/-- JSON serialization of an optional request body, already represented by its
JSON text: `JSON.stringify(data || {})` yields `"{}"` for a null body. -/
def jsonOf : Option String → String
  | none => "\x7b\x7d"
  | some j => j

/-- `generateCacheKey(endpoint, method, data)`: the string
`method ++ "_" ++ endpoint ++ "_" ++ JSON.stringify(data || {})`. -/
def generateCacheKey (endpoint method : String) (data : Option String) : String :=
  method ++ "_" ++ endpoint ++ "_" ++ jsonOf data

/-- Remove a key from the cache map (JavaScript `Map.delete`). -/
def eraseKey (c : Cache) (k : String) : Cache :=
  c.filter (fun kv => kv.1 != k)

/-- `getCachedData(cacheKey)`: returns the stored envelope if present and not
older than `CACHE_DURATION`; an expired entry is deleted and treated as
absent. Returns the looked-up value and the possibly-updated map. -/
def getCachedData (c : Cache) (cacheKey : String) (now : Nat) : Option Envelope × Cache :=
  match List.lookup cacheKey c with
  | none => (none, c)
  | some cached =>
    if now - cached.timestamp > CACHE_DURATION then (none, eraseKey c cacheKey)
    else (some cached.data, c)

/-- `setCachedData(cacheKey, data)`: stores the envelope with the current
timestamp (JavaScript `Map.set` replaces any previous binding). -/
def setCachedData (c : Cache) (cacheKey : String) (v : Envelope) (now : Nat) : Cache :=
  (cacheKey, ⟨v, now⟩) :: eraseKey c cacheKey

instance {ε α : Type} [DecidableEq ε] [DecidableEq α] : DecidableEq (Except ε α) := fun x y =>
  match x, y with
  | .ok a, .ok b => if h : a = b then .isTrue (by rw [h]) else .isFalse (by simp [h])
  | .error a, .error b => if h : a = b then .isTrue (by rw [h]) else .isFalse (by simp [h])
  | .ok _, .error _ => .isFalse (by simp)
  | .error _, .ok _ => .isFalse (by simp)

/-- Outcome of one `fetch` attempt: an HTTP response (with status, status text
and a JSON body whose parsing may itself throw), an abort fired by the timeout
controller, or a network-level failure (`TypeError: Failed to fetch`). -/
inductive FetchOutcome where
  | response (status : Nat) (statusText : String) (body : Except JsError String)
  | abort
  | netFail
deriving DecidableEq

/-- `response.ok` of the Fetch API: status in the 2xx range. -/
def statusOk (s : Nat) : Bool := 200 ≤ s && s < 300

/-- What one iteration of the retry loop observes. -/
inductive AttemptOutcome where
  | ok (data : String) (status : Nat)
  | thrown (e : JsError)
deriving DecidableEq

/-- The body of the `try` block of `makeRequestWithRetry` for one attempt:
a non-2xx response is turned into `throw new Error("HTTP status: text")`,
an abort surfaces as an `AbortError`, a network failure as a `TypeError`,
and a body parse failure rethrows the parse error. -/
def attemptOf : FetchOutcome → AttemptOutcome
  | .abort => .thrown ⟨"AbortError", "The operation was aborted."⟩
  | .netFail => .thrown ⟨"TypeError", "Failed to fetch"⟩
  | .response s text body =>
    if statusOk s then
      match body with
      | .ok d => .ok d s
      | .error e => .thrown e
    else .thrown ⟨"Error", "HTTP " ++ toString s ++ ": " ++ text⟩

/-- `handleRequestError(error)`: classification of the last observed error
into the failure envelope, by `name` and `message` inspection, in source
order. -/
def handleRequestError (e : JsError) : Envelope :=
  if e.name == "AbortError" then
    .failure "Timeout: La petición tardó demasiado tiempo" "TIMEOUT"
  else if e.name == "TypeError" && strIncludes e.message "Failed to fetch" then
    .failure "Error de conexión: No se puede conectar al servidor" "CONNECTION_ERROR"
  else if strIncludes e.message "HTTP 404" then
    .failure "Recurso no encontrado" "NOT_FOUND"
  else if strIncludes e.message "HTTP 401" then
    .failure "No autorizado: Verifique sus credenciales" "UNAUTHORIZED"
  else if strIncludes e.message "HTTP 403" then
    .failure "Acceso denegado: No tiene permisos suficientes" "FORBIDDEN"
  else if strIncludes e.message "HTTP 500" then
    .failure "Error interno del servidor" "SERVER_ERROR"
  else
    .failure (if e.message == "" then "Error desconocido" else e.message) "UNKNOWN_ERROR"

/-- Observable outcome of the retry loop: the envelope produced, the number of
transport (`fetch`) invocations, and the sleeps performed between attempts,
in order. -/
structure RunResult where
  envelope : Envelope
  calls : Nat
  delays : List Nat
deriving DecidableEq

/-- The `for` loop of `makeRequestWithRetry`, over the list of remaining
attempt numbers, carrying `lastError`. On a failed attempt that is not the
last, the loop sleeps `retryDelay * attempt` before continuing; after the
loop, `handleRequestError(lastError)` runs — reading `.name` off a still-null
`lastError` (only possible if the loop ran zero times) is a thrown
`TypeError`, kept here as the `Except.error` case. -/
def retryList (tr : Nat → FetchOutcome) (rd : Nat) :
    List Nat → Option JsError → Except JsError RunResult
  | [], none => .error ⟨"TypeError", "Cannot read properties of null (reading 'name')"⟩
  | [], some e => .ok ⟨handleRequestError e, 0, []⟩
  | a :: rest, _ =>
    match attemptOf (tr a) with
    | .ok d s => .ok ⟨.success d s, 1, []⟩
    | .thrown e =>
      match retryList tr rd rest (some e) with
      | .error e2 => .error e2
      | .ok r =>
        .ok ⟨r.envelope, r.calls + 1, if rest.isEmpty then r.delays else rd * a :: r.delays⟩

/-- `makeRequestWithRetry`: attempts numbered `1 .. maxAttempts`, where
`maxAttempts = skipRetry ? 1 : API_CONFIG.retryAttempts`. -/
def makeRequestWithRetry (tr : Nat → FetchOutcome) (skipRetry : Bool) :
    Except JsError RunResult :=
  retryList tr API_CONFIG.retryDelay
    (List.range' 1 (if skipRetry then 1 else API_CONFIG.retryAttempts)) none

/-- Observable outcome of one facade call: envelope, final cache, transport
invocation count, and inter-attempt sleeps. -/
structure OpResult where
  envelope : Envelope
  cache : Cache
  calls : Nat
  delays : List Nat
deriving DecidableEq

/-- `makeRequest(endpoint, method, data, options)`: offline short-circuit,
cache consultation for cache-enabled calls, then the retry loop; a successful
envelope of a cache-enabled GET is stored back under the same key. -/
def makeRequest (isOnline : Bool) (c : Cache) (now : Nat) (tr : Nat → FetchOutcome)
    (endpoint method : String) (data : Option String) (useCache skipRetry : Bool) :
    Except JsError OpResult :=
  if isOnline then
    match (if useCache then getCachedData c (generateCacheKey endpoint method data) now
           else (none, c)) with
    | (some env, c1) => .ok ⟨env, c1, 0, []⟩
    | (none, c1) =>
      match makeRequestWithRetry tr skipRetry with
      | .error e => .error e
      | .ok r =>
        match r.envelope with
        | .success d2 s =>
          .ok ⟨.success d2 s,
               if useCache && method == "GET" then
                 setCachedData c1 (generateCacheKey endpoint method data) (.success d2 s) now
               else c1,
               r.calls, r.delays⟩
        | .failure msg code => .ok ⟨.failure msg code, c1, r.calls, r.delays⟩
  else
    .ok ⟨.failure "Sin conexión a internet" "OFFLINE", c, 0, []⟩

/-- Leap-year test of the Gregorian calendar. -/
def isLeap (y : Nat) : Bool := (y % 4 == 0 && y % 100 != 0) || y % 400 == 0

/-- Number of days of month `m` of year `y`. -/
def daysInMonth (y m : Nat) : Nat :=
  if m == 2 then (if isLeap y then 29 else 28)
  else if m == 4 || m == 6 || m == 9 || m == 11 then 30
  else 31

/-- Numeric value of a decimal digit character. -/
def digitVal (c : Char) : Nat := c.toNat - 48

/-- Value of a list of decimal digit characters. -/
def natOfDigits (l : List Char) : Nat := l.foldl (fun acc c => acc * 10 + digitVal c) 0

/-- Parse a `YYYY-MM-DD` string into `(year, month, day)`, succeeding exactly
when `isValidDate` of API.js accepts it: the ten-character dashed digit format
and a real calendar date (the `toISOString` round-trip of the source rejects
rolled-over dates such as `2025-02-30`). -/
def parseYMD (s : String) : Option (Nat × Nat × Nat) :=
  match s.toList with
  | [y1, y2, y3, y4, h1, m1, m2, h2, d1, d2] =>
    if h1 == '-' && h2 == '-' && [y1, y2, y3, y4, m1, m2, d1, d2].all (·.isDigit) then
      let y := natOfDigits [y1, y2, y3, y4]
      let m := natOfDigits [m1, m2]
      let d := natOfDigits [d1, d2]
      if 1 ≤ m ∧ m ≤ 12 ∧ 1 ≤ d ∧ d ≤ daysInMonth y m then some (y, m, d) else none
    else none
  | _ => none

/-- `isValidDate(dateString)` of API.js. -/
def isValidDate (s : String) : Bool := (parseYMD s).isSome

/-- Millisecond-order-preserving numeric value of a valid date string: the
`<` / `≤` order of these numbers agrees with the order of the corresponding
JavaScript `Date` timestamps. Invalid strings give `none` (a `NaN` date, which
compares false against everything). -/
def dateNum (s : String) : Option Nat :=
  (parseYMD s).map (fun t => t.1 * 10000 + t.2.1 * 100 + t.2.2)

/-- The project payload handed to `createProject` / `updateProject`. Fields
absent from the JavaScript object are `none`; the `users` list keeps only the
user identifiers (the facade validator inspects only its length). -/
structure ProjectData where
  name : Option String
  description : Option String
  startDate : Option String
  endDate : Option String
  status : Option String
  users : Option (List String)
deriving DecidableEq

/-- JavaScript `s.trim()`: strips leading and trailing whitespace. -/
def jsTrim (s : String) : String :=
  String.mk ((s.toList.dropWhile Char.isWhitespace).reverse.dropWhile Char.isWhitespace).reverse

/-- JavaScript falsiness of an optional string field (`undefined` or `""`). -/
def strFalsy : Option String → Bool
  | none => true
  | some s => s == ""

/-- `validateProjectData(projectData, isCreation)` of the `ProjectAPI` class:
the list of error messages, accumulated in source order. The call is valid
exactly when this list is empty. -/
def validateProjectData (pd : ProjectData) (isCreation : Bool) : List String :=
  (if isCreation then
    (if (match pd.name with | none => true | some s => jsTrim s == "") then
      ["El nombre del proyecto es requerido"] else [])
    ++ (if strFalsy pd.startDate then ["La fecha de inicio es requerida"] else [])
    ++ (if strFalsy pd.endDate then ["La fecha de finalización es requerida"] else [])
  else [])
  ++ (match pd.name with
      | none => []
      | some s =>
        if jsTrim s == "" then ["El nombre del proyecto debe ser un texto válido"]
        else if (jsTrim s).length > 100 then
          ["El nombre del proyecto no puede exceder 100 caracteres"]
        else [])
  ++ (match pd.startDate with
      | none => []
      | some s =>
        if isValidDate s then [] else ["La fecha de inicio debe ser válida (formato: YYYY-MM-DD)"])
  ++ (match pd.endDate with
      | none => []
      | some s =>
        if isValidDate s then []
        else ["La fecha de finalización debe ser válida (formato: YYYY-MM-DD)"])
  ++ (if !strFalsy pd.startDate && !strFalsy pd.endDate then
        match dateNum ((pd.startDate).getD ""), dateNum ((pd.endDate).getD "") with
        | some sv, some ev =>
          if ev ≤ sv then ["La fecha de finalización debe ser posterior a la fecha de inicio"]
          else []
        | _, _ => []
      else [])
  ++ (match pd.status with
      | none => []
      | some st =>
        if st == "en_proceso" || st == "terminado" then []
        else ["El estado debe ser \"en_proceso\" o \"terminado\""])
  ++ (match pd.description with
      | none => []
      | some d => if d.length > 500 then ["La descripción no puede exceder 500 caracteres"] else [])
  ++ (match pd.users with
      | none => []
      | some us =>
        if us.length > 7 then ["No se pueden asignar más de 7 usuarios por proyecto"] else [])

/-- Hexadecimal digit character (uppercase, as `encodeURIComponent` emits). -/
def hexDigitChar (n : Nat) : Char :=
  if n < 10 then Char.ofNat (48 + n) else Char.ofNat (55 + n)

/-- Characters `encodeURIComponent` leaves unescaped. -/
def uriUnreserved (c : Char) : Bool :=
  c.isAlphanum || c == '-' || c == '_' || c == '.' || c == '!' || c == '~' || c == '*' ||
    c == '\'' || c == '(' || c == ')'

/-- UTF-8 bytes of one character. -/
def utf8Bytes (c : Char) : List Nat :=
  let n := c.toNat
  if n < 128 then [n]
  else if n < 2048 then [192 + n / 64, 128 + n % 64]
  else if n < 65536 then [224 + n / 4096, 128 + (n / 64) % 64, 128 + n % 64]
  else [240 + n / 262144, 128 + (n / 4096) % 64, 128 + (n / 64) % 64, 128 + n % 64]

/-- Percent-encoding of one character. -/
def encodeChar (c : Char) : List Char :=
  if uriUnreserved c && c.toNat < 128 then [c]
  else (utf8Bytes c).foldr (fun b acc => '%' :: hexDigitChar (b / 16) :: hexDigitChar (b % 16) :: acc) []

/-- JavaScript `encodeURIComponent`. -/
def encodeURIComponent (s : String) : String :=
  String.mk (s.toList.foldr (fun c acc => encodeChar c ++ acc) [])

/-- JSON text sent as the body of `createProject` / `updateProject`
(`JSON.stringify(projectData)`). Only used as an opaque body string. -/
def stringifyProject (pd : ProjectData) : String :=
  "\x7b" ++ String.intercalate "," (
    (match pd.name with | none => [] | some v => ["\"name\":\"" ++ v ++ "\""])
    ++ (match pd.description with | none => [] | some v => ["\"description\":\"" ++ v ++ "\""])
    ++ (match pd.startDate with | none => [] | some v => ["\"startDate\":\"" ++ v ++ "\""])
    ++ (match pd.endDate with | none => [] | some v => ["\"endDate\":\"" ++ v ++ "\""])
    ++ (match pd.status with | none => [] | some v => ["\"status\":\"" ++ v ++ "\""])
    ++ (match pd.users with
        | none => []
        | some us => ["\"users\":[" ++ String.intercalate "," (us.map (fun u => "\"" ++ u ++ "\"")) ++ "]"]))
  ++ "\x7d"

/-- The mutable state of one `ProjectAPI` instance that the claims observe:
the connectivity flag and the cache. -/
structure Client where
  isOnline : Bool
  cache : Cache
deriving DecidableEq

/-- `clearProjectsCache()`: deletes every cache key containing `/projects`. -/
def clearProjectsCache (c : Cache) : Cache :=
  c.filter (fun kv => !(strIncludes kv.1 "/projects"))

/-- `clearProjectCache(projectId)`: deletes every cache key containing
`/projects/<id>` or `/projects`. -/
def clearProjectCache (c : Cache) (projectId : String) : Cache :=
  c.filter (fun kv =>
    !(strIncludes kv.1 ("/projects/" ++ projectId) || strIncludes kv.1 "/projects"))

/-- `checkHealth()`: `GET /health`, cache disabled, retries skipped. -/
def checkHealth (cl : Client) (now : Nat) (tr : Nat → FetchOutcome) : Except JsError OpResult :=
  makeRequest cl.isOnline cl.cache now tr "/health" "GET" none false true

/-- `getAllProjects()`: cached `GET /projects`. -/
def getAllProjects (cl : Client) (now : Nat) (tr : Nat → FetchOutcome) : Except JsError OpResult :=
  makeRequest cl.isOnline cl.cache now tr "/projects" "GET" none true false

/-- `searchProjects(searchTerm)`: a blank term answers `[]` locally; otherwise
a cached `GET /projects/search?q=<encoded term>`. -/
def searchProjects (cl : Client) (now : Nat) (tr : Nat → FetchOutcome) (term : String) :
    Except JsError OpResult :=
  if jsTrim term == "" then .ok ⟨.success "[]" 200, cl.cache, 0, []⟩
  else makeRequest cl.isOnline cl.cache now tr
    ("/projects/search?q=" ++ encodeURIComponent (jsTrim term)) "GET" none true false

/-- `getProjectById(projectId)`: a falsy id is a local validation failure;
otherwise a cached `GET /projects/<encoded id>`. -/
def getProjectById (cl : Client) (now : Nat) (tr : Nat → FetchOutcome) (projectId : String) :
    Except JsError OpResult :=
  if projectId == "" then
    .ok ⟨.failure "ID de proyecto requerido" "VALIDATION_ERROR", cl.cache, 0, []⟩
  else makeRequest cl.isOnline cl.cache now tr
    ("/projects/" ++ encodeURIComponent projectId) "GET" none true false

/-- `createProject(projectData)`: local validation, then `POST /projects`
without cache; on success the whole projects cache is invalidated. -/
def createProject (cl : Client) (now : Nat) (tr : Nat → FetchOutcome) (pd : ProjectData) :
    Except JsError OpResult :=
  if (validateProjectData pd true).isEmpty then
    match makeRequest cl.isOnline cl.cache now tr "/projects" "POST"
        (some (stringifyProject pd)) false false with
    | .error e => .error e
    | .ok r =>
      match r.envelope with
      | .success d s => .ok ⟨.success d s, clearProjectsCache r.cache, r.calls, r.delays⟩
      | .failure msg code => .ok ⟨.failure msg code, r.cache, r.calls, r.delays⟩
  else
    .ok ⟨.failure ("Datos inválidos: " ++ String.intercalate ", " (validateProjectData pd true))
          "VALIDATION_ERROR", cl.cache, 0, []⟩

/-- `updateProject(projectId, projectData)`: id presence and local validation,
then `PUT /projects/<encoded id>` without cache; on success the cache is
invalidated through `clearProjectCache(projectId)`. -/
def updateProject (cl : Client) (now : Nat) (tr : Nat → FetchOutcome)
    (projectId : String) (pd : ProjectData) : Except JsError OpResult :=
  if projectId == "" then
    .ok ⟨.failure "ID de proyecto requerido" "VALIDATION_ERROR", cl.cache, 0, []⟩
  else
    if (validateProjectData pd false).isEmpty then
      match makeRequest cl.isOnline cl.cache now tr
          ("/projects/" ++ encodeURIComponent projectId) "PUT"
          (some (stringifyProject pd)) false false with
      | .error e => .error e
      | .ok r =>
        match r.envelope with
        | .success d s => .ok ⟨.success d s, clearProjectCache r.cache projectId, r.calls, r.delays⟩
        | .failure msg code => .ok ⟨.failure msg code, r.cache, r.calls, r.delays⟩
    else
      .ok ⟨.failure ("Datos inválidos: " ++ String.intercalate ", " (validateProjectData pd false))
            "VALIDATION_ERROR", cl.cache, 0, []⟩

/-- `deleteProject(projectId)`: id presence check, then
`DELETE /projects/<encoded id>` without cache; on success the cache is
invalidated through `clearProjectCache(projectId)`. -/
def deleteProject (cl : Client) (now : Nat) (tr : Nat → FetchOutcome) (projectId : String) :
    Except JsError OpResult :=
  if projectId == "" then
    .ok ⟨.failure "ID de proyecto requerido" "VALIDATION_ERROR", cl.cache, 0, []⟩
  else
    match makeRequest cl.isOnline cl.cache now tr
        ("/projects/" ++ encodeURIComponent projectId) "DELETE" none false false with
    | .error e => .error e
    | .ok r =>
      match r.envelope with
      | .success d s => .ok ⟨.success d s, clearProjectCache r.cache projectId, r.calls, r.delays⟩
      | .failure msg code => .ok ⟨.failure msg code, r.cache, r.calls, r.delays⟩

/-! Helper lemmas: strings and substrings. -/

lemma toList_app (s t : String) : (s ++ t).toList = s.toList ++ t.toList := by
  cases s; cases t; rfl

lemma eq_of_toList_eq {s t : String} (h : s.toList = t.toList) : s = t := by
  cases s; cases t; simp only [String.toList] at h; simp [h]

lemma hasPre_iff (p : List Char) : ∀ l : List Char, hasPre p l = true ↔ ∃ r, l = p ++ r := by
  induction p with
  | nil => intro l; simp [hasPre]
  | cons c cs ih =>
    intro l
    cases l with
    | nil => simp [hasPre]
    | cons d ds =>
      simp only [hasPre, Bool.and_eq_true, beq_iff_eq, ih ds, List.cons_append,
        List.cons.injEq]
      constructor
      · rintro ⟨rfl, r, rfl⟩; exact ⟨r, rfl, rfl⟩
      · rintro ⟨r, rfl, rfl⟩; exact ⟨rfl, r, rfl⟩

lemma hasSub_iff (p : List Char) : ∀ l : List Char, hasSub p l = true ↔ ∃ x y, l = x ++ p ++ y := by
  intro l
  induction l with
  | nil =>
    simp only [hasSub, hasPre_iff]
    constructor
    · rintro ⟨r, hr⟩; exact ⟨[], r, by simpa using hr⟩
    · rintro ⟨x, y, hxy⟩
      have h1 := List.append_eq_nil.mp hxy.symm
      have h2 := List.append_eq_nil.mp h1.1
      exact ⟨[], by simp [h2.2]⟩
  | cons c t ih =>
    simp only [hasSub, Bool.or_eq_true, hasPre_iff, ih]
    constructor
    · rintro (⟨r, hr⟩ | ⟨x, y, hxy⟩)
      · exact ⟨[], r, by simpa using hr⟩
      · exact ⟨c :: x, y, by simp [hxy]⟩
    · rintro ⟨x, y, hxy⟩
      cases x with
      | nil => exact Or.inl ⟨y, by simpa using hxy⟩
      | cons a z =>
        right
        have h2 : c = a ∧ t = z ++ p ++ y := by
          simpa only [List.cons_append, List.cons.injEq, List.append_assoc] using hxy
        exact ⟨z, y, by simp [h2.2]⟩

lemma strIncludes_iff (s pat : String) :
    strIncludes s pat = true ↔ ∃ x y, s.toList = x ++ pat.toList ++ y := by
  exact hasSub_iff pat.toList s.toList

lemma strIncludes_app_left {k a b : String} (h : strIncludes k (a ++ b) = true) :
    strIncludes k a = true := by
  rw [strIncludes_iff] at h ⊢
  obtain ⟨x, y, hxy⟩ := h
  rw [toList_app] at hxy
  exact ⟨x, b.toList ++ y, by simpa [String.toList, List.append_assoc] using hxy⟩

lemma strIncludes_of_decomp {k a : String} (x y : List Char)
    (h : k.toList = x ++ a.toList ++ y) : strIncludes k a = true := by
  rw [strIncludes_iff]; exact ⟨x, y, h⟩

/-! Helper lemmas: cache map. -/

lemma lookup_filter_none (f : String × CacheEntry → Bool) (k : String)
    (h : ∀ e : CacheEntry, f (k, e) = false) :
    ∀ c : Cache, List.lookup k (c.filter f) = none := by
  intro c
  induction c with
  | nil => rfl
  | cons kv rest ih =>
    obtain ⟨k1, e1⟩ := kv
    by_cases hk : k = k1
    · subst hk
      simp [List.filter_cons, h e1, ih]
    · have hbeq : (k == k1) = false := beq_eq_false_iff_ne.mpr hk
      cases hf : f (k1, e1)
      · simp [List.filter_cons, hf, ih]
      · simp [List.filter_cons, hf, List.lookup, hbeq, ih]

lemma lookup_filter_same (f : String × CacheEntry → Bool) (k : String)
    (h : ∀ e : CacheEntry, f (k, e) = true) :
    ∀ c : Cache, List.lookup k (c.filter f) = List.lookup k c := by
  intro c
  induction c with
  | nil => rfl
  | cons kv rest ih =>
    obtain ⟨k1, e1⟩ := kv
    by_cases hk : k = k1
    · subst hk
      simp [List.filter_cons, h e1, List.lookup, ih]
    · have hbeq : (k == k1) = false := beq_eq_false_iff_ne.mpr hk
      cases hf : f (k1, e1)
      · simp [List.filter_cons, hf, List.lookup, hbeq, ih]
      · simp [List.filter_cons, hf, List.lookup, hbeq, ih]

lemma getCachedData_absent {c : Cache} {k : String} {now : Nat}
    (h : List.lookup k c = none) : getCachedData c k now = (none, c) := by
  simp [getCachedData, h]

lemma getCachedData_fresh {c : Cache} {k : String} {now : Nat} {en : CacheEntry}
    (h : List.lookup k c = some en) (hf : now - en.timestamp ≤ CACHE_DURATION) :
    getCachedData c k now = (some en.data, c) := by
  simp [getCachedData, h]
  omega

lemma getCachedData_expired {c : Cache} {k : String} {now : Nat} {en : CacheEntry}
    (h : List.lookup k c = some en) (he : now - en.timestamp > CACHE_DURATION) :
    getCachedData c k now = (none, eraseKey c k) := by
  simp [getCachedData, h, he]

lemma lookup_set_self (c : Cache) (k : String) (v : Envelope) (t : Nat) :
    List.lookup k (setCachedData c k v t) = some ⟨v, t⟩ := by
  simp [setCachedData, List.lookup]

lemma lookup_erase_self (c : Cache) (k : String) :
    List.lookup k (eraseKey c k) = none := by
  have h : ∀ e : CacheEntry, (fun kv : String × CacheEntry => kv.1 != k) (k, e) = false := by
    intro e; simp
  simpa [eraseKey] using lookup_filter_none (fun kv => kv.1 != k) k h c

/-! Helper lemmas: the retry loop. -/

lemma retryList_nil_some (tr : Nat → FetchOutcome) (rd : Nat) (e : JsError) :
    retryList tr rd [] (some e) = .ok ⟨handleRequestError e, 0, []⟩ := rfl

lemma retryList_cons_ok (tr : Nat → FetchOutcome) (rd a : Nat) (rest : List Nat)
    (le : Option JsError) (d : String) (s : Nat) (h : attemptOf (tr a) = .ok d s) :
    retryList tr rd (a :: rest) le = .ok ⟨.success d s, 1, []⟩ := by
  simp [retryList, h]

lemma retryList_cons_thrown (tr : Nat → FetchOutcome) (rd a : Nat) (rest : List Nat)
    (le : Option JsError) (e : JsError) (h : attemptOf (tr a) = .thrown e) :
    retryList tr rd (a :: rest) le =
      match retryList tr rd rest (some e) with
      | .error e2 => .error e2
      | .ok r =>
        .ok ⟨r.envelope, r.calls + 1, if rest.isEmpty then r.delays else rd * a :: r.delays⟩ := by
  simp [retryList, h]

lemma retryList_total (tr : Nat → FetchOutcome) (rd : Nat) :
    ∀ (l : List Nat) (le : Option JsError), l ≠ [] ∨ le.isSome = true →
    ∃ r, retryList tr rd l le = .ok r := by
  intro l
  induction l with
  | nil =>
    intro le h
    cases le with
    | none => simp at h
    | some e => exact ⟨_, rfl⟩
  | cons a rest ih =>
    intro le _
    cases h : attemptOf (tr a) with
    | ok d s => exact ⟨_, retryList_cons_ok tr rd a rest le d s h⟩
    | thrown e =>
      obtain ⟨r, hr⟩ := ih (some e) (Or.inr rfl)
      exact ⟨⟨r.envelope, r.calls + 1, if rest.isEmpty then r.delays else rd * a :: r.delays⟩,
        by rw [retryList_cons_thrown tr rd a rest le e h, hr]⟩

lemma makeRequestWithRetry_total (tr : Nat → FetchOutcome) (sk : Bool) :
    ∃ r, makeRequestWithRetry tr sk = .ok r := by
  unfold makeRequestWithRetry
  apply retryList_total
  left
  cases sk <;> decide

lemma attempts_list_skip : List.range' 1 (if true = true then 1 else API_CONFIG.retryAttempts) = [1] := rfl

lemma attempts_list_full : List.range' 1 (if false = true then 1 else API_CONFIG.retryAttempts) = [1, 2, 3] := rfl

lemma mkRWR_ok1 {tr : Nat → FetchOutcome} {d : String} {s : Nat} (sk : Bool)
    (h : attemptOf (tr 1) = .ok d s) :
    makeRequestWithRetry tr sk = .ok ⟨.success d s, 1, []⟩ := by
  unfold makeRequestWithRetry
  cases sk
  · rw [attempts_list_full, retryList_cons_ok _ _ _ _ _ _ _ h]
  · rw [attempts_list_skip, retryList_cons_ok _ _ _ _ _ _ _ h]

lemma mkRWR_fail3 {tr : Nat → FetchOutcome} {e1 e2 e3 : JsError}
    (h1 : attemptOf (tr 1) = .thrown e1) (h2 : attemptOf (tr 2) = .thrown e2)
    (h3 : attemptOf (tr 3) = .thrown e3) :
    makeRequestWithRetry tr false =
      .ok ⟨handleRequestError e3, 3, [API_CONFIG.retryDelay * 1, API_CONFIG.retryDelay * 2]⟩ := by
  unfold makeRequestWithRetry
  rw [attempts_list_full,
    retryList_cons_thrown _ _ _ _ _ _ h1,
    retryList_cons_thrown _ _ _ _ _ _ h2,
    retryList_cons_thrown _ _ _ _ _ _ h3,
    retryList_nil_some]
  rfl

lemma mkRWR_failfail_ok {tr : Nat → FetchOutcome} {e1 e2 : JsError} {d : String} {s : Nat}
    (h1 : attemptOf (tr 1) = .thrown e1) (h2 : attemptOf (tr 2) = .thrown e2)
    (h3 : attemptOf (tr 3) = .ok d s) :
    makeRequestWithRetry tr false =
      .ok ⟨.success d s, 3, [API_CONFIG.retryDelay * 1, API_CONFIG.retryDelay * 2]⟩ := by
  unfold makeRequestWithRetry
  rw [attempts_list_full,
    retryList_cons_thrown _ _ _ _ _ _ h1,
    retryList_cons_thrown _ _ _ _ _ _ h2,
    retryList_cons_ok _ _ _ _ _ _ _ h3]
  rfl

lemma mkRWR_fail1_skip {tr : Nat → FetchOutcome} {e1 : JsError}
    (h1 : attemptOf (tr 1) = .thrown e1) :
    makeRequestWithRetry tr true = .ok ⟨handleRequestError e1, 1, []⟩ := by
  unfold makeRequestWithRetry
  rw [attempts_list_skip, retryList_cons_thrown _ _ _ _ _ _ h1, retryList_nil_some]
  rfl

lemma retryList_calls_pos (tr : Nat → FetchOutcome) (rd a : Nat) (rest : List Nat)
    (le : Option JsError) (r : RunResult)
    (h : retryList tr rd (a :: rest) le = .ok r) : 1 ≤ r.calls := by
  cases hA : attemptOf (tr a) with
  | ok d s =>
    rw [retryList_cons_ok tr rd a rest le d s hA] at h
    cases h; simp
  | thrown e =>
    rw [retryList_cons_thrown tr rd a rest le e hA] at h
    cases hR : retryList tr rd rest (some e) with
    | error e2 => rw [hR] at h; cases h
    | ok r2 => rw [hR] at h; cases h; simp

/-! Helper lemmas: `makeRequest` scenarios. -/

lemma makeRequest_offline (c : Cache) (now : Nat) (tr : Nat → FetchOutcome)
    (ep m : String) (d : Option String) (uc sr : Bool) :
    makeRequest false c now tr ep m d uc sr =
      .ok ⟨.failure "Sin conexión a internet" "OFFLINE", c, 0, []⟩ := rfl

lemma makeRequest_hit {c : Cache} {now : Nat} {tr : Nat → FetchOutcome}
    {ep m : String} {d : Option String} {sr : Bool} {env : Envelope} {c1 : Cache}
    (h : getCachedData c (generateCacheKey ep m d) now = (some env, c1)) :
    makeRequest true c now tr ep m d true sr = .ok ⟨env, c1, 0, []⟩ := by
  simp [makeRequest, h]

lemma makeRequest_net {c : Cache} {now : Nat} {tr : Nat → FetchOutcome}
    {ep m : String} {d : Option String} {uc sr : Bool} {c1 : Cache} {r : RunResult}
    (hmiss : (if uc then getCachedData c (generateCacheKey ep m d) now else (none, c)) = (none, c1))
    (hr : makeRequestWithRetry tr sr = .ok r) :
    makeRequest true c now tr ep m d uc sr =
      match r.envelope with
      | .success d2 s =>
        .ok ⟨.success d2 s,
             if uc && m == "GET" then
               setCachedData c1 (generateCacheKey ep m d) (.success d2 s) now
             else c1,
             r.calls, r.delays⟩
      | .failure msg code => .ok ⟨.failure msg code, c1, r.calls, r.delays⟩ := by
  simp [makeRequest, hmiss, hr]

lemma makeRequest_total (o : Bool) (c : Cache) (now : Nat) (tr : Nat → FetchOutcome)
    (ep m : String) (d : Option String) (uc sr : Bool) :
    ∃ r, makeRequest o c now tr ep m d uc sr = .ok r := by
  cases o with
  | false => exact ⟨_, makeRequest_offline c now tr ep m d uc sr⟩
  | true =>
    cases hmiss : (if uc then getCachedData c (generateCacheKey ep m d) now else (none, c)) with
    | mk fst c1 =>
      cases fst with
      | some env => exact ⟨⟨env, c1, 0, []⟩, by simp [makeRequest, hmiss]⟩
      | none =>
        obtain ⟨r, hr⟩ := makeRequestWithRetry_total tr sr
        rw [makeRequest_net hmiss hr]
        cases r.envelope <;> exact ⟨_, rfl⟩

/-! Helper lemmas: attempt outcomes and status codes. -/

lemma attemptOf_notOk {s : Nat} {t : String} {b : Except JsError String}
    (h : statusOk s = false) :
    attemptOf (.response s t b) = .thrown ⟨"Error", "HTTP " ++ toString s ++ ": " ++ t⟩ := by
  simp [attemptOf, h]

lemma statusOk_false_of_ge300 {s : Nat} (h : 300 ≤ s) : statusOk s = false := by
  unfold statusOk
  have h2 : ¬ s < 300 := by omega
  simp [h2]

/-- A retryable failure as the spec classifies one: timeout (abort), network
failure, or a 5xx response. -/
def Retryable (f : FetchOutcome) : Prop :=
  f = .abort ∨ f = .netFail ∨ ∃ s t b, f = .response s t b ∧ 500 ≤ s ∧ s ≤ 599

lemma retryable_thrown {f : FetchOutcome} (h : Retryable f) :
    ∃ e, attemptOf f = .thrown e := by
  rcases h with rfl | rfl | ⟨s, t, b, rfl, hs, _⟩
  · exact ⟨_, rfl⟩
  · exact ⟨_, rfl⟩
  · exact ⟨_, attemptOf_notOk (statusOk_false_of_ge300 (by omega))⟩

/-- C1 counterexample: with the server answering HTTP 404 (a non-retryable
failure per the claim) on every attempt, `getAllProjects` on an online client
with an empty cache invokes the Transport 3 times — not exactly once — and
only then surfaces the classified failure. -/
theorem C1_counterexample :
    getAllProjects ⟨true, []⟩ 0 (fun _ => .response 404 "Not Found" (.ok "")) =
      .ok ⟨.failure "Recurso no encontrado" "NOT_FOUND", [], 3, [1000, 2000]⟩ ∧
    (3 : Nat) ≠ 1 :=
  ⟨by decide, by decide⟩

/-- C1 amended: HTTP 4xx responses are retried exactly like retryable
failures — the retry loop inspects no failure type, so with retries enabled
the Transport is invoked the full `API_CONFIG.retryAttempts = 3` times and the
4xx failure is classified and surfaced only after the final attempt; a
`skipRetry` operation invokes the Transport exactly once. -/
theorem C1_amended (tr : Nat → FetchOutcome) (s : Nat → Nat) (t : Nat → String)
    (b : Nat → Except JsError String)
    (htr : ∀ i, 1 ≤ i → i ≤ 3 → tr i = .response (s i) (t i) (b i))
    (h4xx : ∀ i, 1 ≤ i → i ≤ 3 → 400 ≤ s i ∧ s i < 500) :
    makeRequestWithRetry tr false =
      .ok ⟨handleRequestError ⟨"Error", "HTTP " ++ toString (s 3) ++ ": " ++ t 3⟩, 3,
           [1000, 2000]⟩ ∧
    makeRequestWithRetry tr true =
      .ok ⟨handleRequestError ⟨"Error", "HTTP " ++ toString (s 1) ++ ": " ++ t 1⟩, 1, []⟩ := by
  have ha : ∀ i, 1 ≤ i → i ≤ 3 →
      attemptOf (tr i) = .thrown ⟨"Error", "HTTP " ++ toString (s i) ++ ": " ++ t i⟩ := by
    intro i h1 h3
    rw [htr i h1 h3]
    exact attemptOf_notOk (statusOk_false_of_ge300 (by have := (h4xx i h1 h3).1; omega))
  have e1 := ha 1 (by omega) (by omega)
  have e2 := ha 2 (by omega) (by omega)
  have e3 := ha 3 (by omega) (by omega)
  exact ⟨by rw [mkRWR_fail3 e1 e2 e3]; rfl, by rw [mkRWR_fail1_skip e1]⟩

/-- C1 amended, checked at a concrete run: a server answering 404 on every
attempt yields `NOT_FOUND` after 3 transport invocations with retries, and
after a single invocation with `skipRetry`. -/
theorem C1_amended_witness :
    makeRequestWithRetry (fun _ => .response 404 "Not Found" (.ok "")) false =
      .ok ⟨.failure "Recurso no encontrado" "NOT_FOUND", 3, [1000, 2000]⟩ ∧
    makeRequestWithRetry (fun _ => .response 404 "Not Found" (.ok "")) true =
      .ok ⟨.failure "Recurso no encontrado" "NOT_FOUND", 1, []⟩ := by
  have h := C1_amended (fun _ => .response 404 "Not Found" (.ok ""))
    (fun _ => 404) (fun _ => "Not Found") (fun _ => .ok "")
    (fun _ _ _ => rfl) (fun _ _ _ => by refine ⟨?_, ?_⟩ <;> norm_num)
  exact ⟨by rw [h.1]; decide, by rw [h.2]; decide⟩

/-- The closed set of error codes of the specification taxonomy. -/
def ERROR_CODES : List String :=
  ["TIMEOUT", "CONNECTION_ERROR", "OFFLINE", "NOT_FOUND", "UNAUTHORIZED", "FORBIDDEN",
   "SERVER_ERROR", "VALIDATION_ERROR", "UNKNOWN_ERROR"]

/-- C8 counterexample: an HTTP 502 failure — a 5xx status from a reachable
server — is classified `UNKNOWN_ERROR`, not `SERVER_ERROR`: the classifier
only recognizes the literal substring `HTTP 500`. -/
theorem C8_counterexample :
    handleRequestError ⟨"Error", "HTTP 502: Bad Gateway"⟩ =
      .failure "HTTP 502: Bad Gateway" "UNKNOWN_ERROR" ∧
    "UNKNOWN_ERROR" ≠ "SERVER_ERROR" :=
  ⟨by decide, by decide⟩

/-- C8 amended: the classifier is a total function into the closed code set —
it never throws and always yields a failure envelope; aborts map to `TIMEOUT`,
network-level fetch failures to `CONNECTION_ERROR`, and HTTP failures by
message inspection: 404 to `NOT_FOUND`, 401 to `UNAUTHORIZED`, 403 to
`FORBIDDEN`, and exactly 500 to `SERVER_ERROR`, while the remaining 5xx
statuses (502, 503, ...) fall through to `UNKNOWN_ERROR`. -/
theorem C8_amended :
    (∀ e : JsError, ∃ msg code, handleRequestError e = .failure msg code ∧ code ∈ ERROR_CODES) ∧
    (∀ m, handleRequestError ⟨"AbortError", m⟩ =
      .failure "Timeout: La petición tardó demasiado tiempo" "TIMEOUT") ∧
    (∀ m, strIncludes m "Failed to fetch" = true →
      handleRequestError ⟨"TypeError", m⟩ =
        .failure "Error de conexión: No se puede conectar al servidor" "CONNECTION_ERROR") ∧
    handleRequestError ⟨"Error", "HTTP 404: Not Found"⟩ =
      .failure "Recurso no encontrado" "NOT_FOUND" ∧
    handleRequestError ⟨"Error", "HTTP 401: Unauthorized"⟩ =
      .failure "No autorizado: Verifique sus credenciales" "UNAUTHORIZED" ∧
    handleRequestError ⟨"Error", "HTTP 403: Forbidden"⟩ =
      .failure "Acceso denegado: No tiene permisos suficientes" "FORBIDDEN" ∧
    handleRequestError ⟨"Error", "HTTP 500: Internal Server Error"⟩ =
      .failure "Error interno del servidor" "SERVER_ERROR" ∧
    handleRequestError ⟨"Error", "HTTP 502: Bad Gateway"⟩ =
      .failure "HTTP 502: Bad Gateway" "UNKNOWN_ERROR" ∧
    handleRequestError ⟨"Error", "HTTP 503: Service Unavailable"⟩ =
      .failure "HTTP 503: Service Unavailable" "UNKNOWN_ERROR" := by
  refine ⟨?_, ?_, ?_, by decide, by decide, by decide, by decide, by decide, by decide⟩
  · intro e
    unfold handleRequestError
    repeat' split
    all_goals exact ⟨_, _, rfl, by decide⟩
  · intro m
    simp [handleRequestError]
  · intro m hm
    simp [handleRequestError, hm]

/-- C8 amended, checked at a concrete raw error: a network-level
`TypeError: Failed to fetch` classifies to `CONNECTION_ERROR`. -/
theorem C8_amended_witness :
    handleRequestError ⟨"TypeError", "Failed to fetch"⟩ =
      .failure "Error de conexión: No se puede conectar al servidor" "CONNECTION_ERROR" :=
  C8_amended.2.2.1 "Failed to fetch" (by decide)

/-! Helper lemmas: unique decomposition of the cache key. -/

lemma split_unique (sep : Char) :
    ∀ (a1 : List Char) (a2 b1 b2 : List Char), sep ∉ a1 → sep ∉ a2 →
    a1 ++ sep :: b1 = a2 ++ sep :: b2 → a1 = a2 ∧ b1 = b2 := by
  intro a1
  induction a1 with
  | nil =>
    intro a2 b1 b2 _ h2 h
    cases a2 with
    | nil => simpa using h
    | cons x xs =>
      exfalso
      simp only [List.nil_append, List.cons_append, List.cons.injEq] at h
      have hx : sep = x := h.1
      subst hx
      exact h2 (List.mem_cons_self _ _)
  | cons y ys ih =>
    intro a2 b1 b2 h1 h2 h
    cases a2 with
    | nil =>
      exfalso
      simp only [List.nil_append, List.cons_append, List.cons.injEq] at h
      have hy : y = sep := h.1
      subst hy
      exact h1 (List.mem_cons_self _ _)
    | cons x xs =>
      simp only [List.cons_append, List.cons.injEq] at h
      obtain ⟨hyx, hrest⟩ := h
      have h1a : sep ∉ ys := fun hm => h1 (List.mem_cons_of_mem _ hm)
      have h2a : sep ∉ xs := fun hm => h2 (List.mem_cons_of_mem _ hm)
      obtain ⟨ha, hb⟩ := ih xs b1 b2 h1a h2a hrest
      exact ⟨by rw [hyx, ha], hb⟩

lemma toList_us : ("_" : String).toList = ['_'] := rfl

/-- C9 counterexample: the cache-key function is not injective — the method
`GET` with endpoint `a_b` and the method `GET_a` with endpoint `b` produce the
identical key, although the two (method, endpoint, body) triples differ. -/
theorem C9_counterexample :
    generateCacheKey "a_b" "GET" none = generateCacheKey "b" "GET_a" none ∧
    ("GET", "a_b", (none : Option String)) ≠ ("GET_a", "b", (none : Option String)) :=
  ⟨by decide, by decide⟩

/-- C9 amended: the key is deterministic — equal (method, endpoint, body)
triples always give the identical key — but distinct triples may collide in
general (see the counterexample). For the requests the facade actually
issues, where the method contains no underscore, the endpoint contains no
opening brace, and the serialized body starts with an opening brace, two
requests differing in method, endpoint, or serialized body always produce
different keys. -/
theorem C9_amended :
    (∀ (e1 m1 : String) (d1 : Option String) (e2 m2 : String) (d2 : Option String),
      m1 = m2 → e1 = e2 → d1 = d2 →
      generateCacheKey e1 m1 d1 = generateCacheKey e2 m2 d2) ∧
    (∀ m1 e1 j1 m2 e2 j2 : String,
      '_' ∉ m1.toList → '_' ∉ m2.toList →
      '\x7b' ∉ e1.toList → '\x7b' ∉ e2.toList →
      j1.toList.head? = some '\x7b' → j2.toList.head? = some '\x7b' →
      generateCacheKey e1 m1 (some j1) = generateCacheKey e2 m2 (some j2) →
      m1 = m2 ∧ e1 = e2 ∧ j1 = j2) := by
  constructor
  · intro e1 m1 d1 e2 m2 d2 hm he hd
    rw [hm, he, hd]
  · intro m1 e1 j1 m2 e2 j2 hm1 hm2 he1 he2 hj1 hj2 h
    have hL := congrArg String.toList h
    simp only [generateCacheKey, jsonOf, toList_app, toList_us, List.append_assoc,
      List.singleton_append] at hL
    obtain ⟨hmEq, hrest⟩ := split_unique '_' m1.toList m2.toList _ _ hm1 hm2 hL
    obtain ⟨c1, t1, hc1⟩ : ∃ c t, j1.toList = c :: t := by
      cases hj : j1.toList with
      | nil => rw [hj] at hj1; cases hj1
      | cons c t => exact ⟨c, t, rfl⟩
    obtain ⟨c2, t2, hc2⟩ : ∃ c t, j2.toList = c :: t := by
      cases hj : j2.toList with
      | nil => rw [hj] at hj2; cases hj2
      | cons c t => exact ⟨c, t, rfl⟩
    have hc1b : c1 = '\x7b' := by rw [hc1] at hj1; simpa using hj1
    have hc2b : c2 = '\x7b' := by rw [hc2] at hj2; simpa using hj2
    subst hc1b hc2b
    rw [hc1, hc2] at hrest
    have hrest2 : (e1.toList ++ ['_']) ++ '\x7b' :: t1 = (e2.toList ++ ['_']) ++ '\x7b' :: t2 := by
      simpa [List.append_assoc] using hrest
    have hnb1 : '\x7b' ∉ e1.toList ++ ['_'] := by
      intro hmem
      rcases List.mem_append.mp hmem with hin | hin
      · exact he1 hin
      · simp at hin
    have hnb2 : '\x7b' ∉ e2.toList ++ ['_'] := by
      intro hmem
      rcases List.mem_append.mp hmem with hin | hin
      · exact he2 hin
      · simp at hin
    obtain ⟨heEq, htEq⟩ := split_unique '\x7b' _ _ _ _ hnb1 hnb2 hrest2
    refine ⟨eq_of_toList_eq hmEq, eq_of_toList_eq (List.append_cancel_right heEq), ?_⟩
    apply eq_of_toList_eq
    rw [hc1, hc2, htEq]

/-- C9 amended, checked at concrete facade-shaped requests. -/
theorem C9_amended_witness :
    ("GET" : String) = "GET" ∧ ("/projects" : String) = "/projects" ∧
    ("\x7b\x7d" : String) = "\x7b\x7d" :=
  C9_amended.2 "GET" "/projects" "\x7b\x7d" "GET" "/projects" "\x7b\x7d"
    (by decide) (by decide) (by decide) (by decide) (by decide) (by decide) rfl

/-! Helper lemmas: every facade operation yields an envelope. -/

lemma checkHealth_total (cl : Client) (now : Nat) (tr : Nat → FetchOutcome) :
    ∃ r, checkHealth cl now tr = .ok r :=
  makeRequest_total cl.isOnline cl.cache now tr "/health" "GET" none false true

lemma getAllProjects_total (cl : Client) (now : Nat) (tr : Nat → FetchOutcome) :
    ∃ r, getAllProjects cl now tr = .ok r :=
  makeRequest_total cl.isOnline cl.cache now tr "/projects" "GET" none true false

lemma searchProjects_total (cl : Client) (now : Nat) (tr : Nat → FetchOutcome) (term : String) :
    ∃ r, searchProjects cl now tr term = .ok r := by
  unfold searchProjects
  cases h : (jsTrim term == "")
  · simp only [h, Bool.false_eq_true, if_false]
    exact makeRequest_total _ _ _ _ _ _ _ _ _
  · simp only [h, if_true]
    exact ⟨_, rfl⟩

lemma getProjectById_total (cl : Client) (now : Nat) (tr : Nat → FetchOutcome) (pid : String) :
    ∃ r, getProjectById cl now tr pid = .ok r := by
  unfold getProjectById
  cases h : (pid == "")
  · simp only [h, Bool.false_eq_true, if_false]
    exact makeRequest_total _ _ _ _ _ _ _ _ _
  · simp only [h, if_true]
    exact ⟨_, rfl⟩

lemma createProject_total (cl : Client) (now : Nat) (tr : Nat → FetchOutcome) (pd : ProjectData) :
    ∃ r, createProject cl now tr pd = .ok r := by
  unfold createProject
  cases hv : (validateProjectData pd true).isEmpty
  · simp only [hv, Bool.false_eq_true, if_false]
    exact ⟨_, rfl⟩
  · simp only [hv, if_true]
    obtain ⟨⟨env, cch, cls, dls⟩, hr⟩ :=
      makeRequest_total cl.isOnline cl.cache now tr "/projects" "POST"
        (some (stringifyProject pd)) false false
    rw [hr]
    cases env <;> exact ⟨_, rfl⟩

lemma updateProject_total (cl : Client) (now : Nat) (tr : Nat → FetchOutcome)
    (pid : String) (pd : ProjectData) :
    ∃ r, updateProject cl now tr pid pd = .ok r := by
  unfold updateProject
  cases h : (pid == "")
  · simp only [h, Bool.false_eq_true, if_false]
    cases hv : (validateProjectData pd false).isEmpty
    · simp only [hv, Bool.false_eq_true, if_false]
      exact ⟨_, rfl⟩
    · simp only [hv, if_true]
      obtain ⟨⟨env, cch, cls, dls⟩, hr⟩ :=
        makeRequest_total cl.isOnline cl.cache now tr
          ("/projects/" ++ encodeURIComponent pid) "PUT" (some (stringifyProject pd)) false false
      rw [hr]
      cases env <;> exact ⟨_, rfl⟩
  · simp only [h, if_true]
    exact ⟨_, rfl⟩

lemma deleteProject_total (cl : Client) (now : Nat) (tr : Nat → FetchOutcome) (pid : String) :
    ∃ r, deleteProject cl now tr pid = .ok r := by
  unfold deleteProject
  cases h : (pid == "")
  · simp only [h, Bool.false_eq_true, if_false]
    obtain ⟨⟨env, cch, cls, dls⟩, hr⟩ :=
      makeRequest_total cl.isOnline cl.cache now tr
        ("/projects/" ++ encodeURIComponent pid) "DELETE" none false false
    rw [hr]
    cases env <;> exact ⟨_, rfl⟩
  · simp only [h, if_true]
    exact ⟨_, rfl⟩

/-- C3: every public facade operation, on every input, client state and
transport behavior, returns the uniform result envelope — the `Except.ok`
case of the embedding — and never lets a thrown JavaScript error (the
`Except.error` case) escape to the caller. -/
theorem C3_envelope_always (cl : Client) (now : Nat) (tr : Nat → FetchOutcome)
    (term pid : String) (pd : ProjectData) :
    (∃ r, checkHealth cl now tr = .ok r) ∧
    (∃ r, getAllProjects cl now tr = .ok r) ∧
    (∃ r, searchProjects cl now tr term = .ok r) ∧
    (∃ r, getProjectById cl now tr pid = .ok r) ∧
    (∃ r, createProject cl now tr pd = .ok r) ∧
    (∃ r, updateProject cl now tr pid pd = .ok r) ∧
    (∃ r, deleteProject cl now tr pid = .ok r) :=
  ⟨checkHealth_total cl now tr, getAllProjects_total cl now tr,
   searchProjects_total cl now tr term, getProjectById_total cl now tr pid,
   createProject_total cl now tr pd, updateProject_total cl now tr pid pd,
   deleteProject_total cl now tr pid⟩

/-- C4: whenever the connectivity monitor reports offline, the request layer
and every facade operation that reaches it return the `OFFLINE` failure
envelope with zero transport invocations and the cache untouched — not even
consulted for eviction. -/
theorem C4_offline_failfast (cl : Client) (now : Nat) (tr : Nat → FetchOutcome)
    (ep m term pid : String) (d : Option String) (uc sr : Bool) (pd : ProjectData)
    (hoff : cl.isOnline = false) :
    makeRequest cl.isOnline cl.cache now tr ep m d uc sr =
      .ok ⟨.failure "Sin conexión a internet" "OFFLINE", cl.cache, 0, []⟩ ∧
    checkHealth cl now tr =
      .ok ⟨.failure "Sin conexión a internet" "OFFLINE", cl.cache, 0, []⟩ ∧
    getAllProjects cl now tr =
      .ok ⟨.failure "Sin conexión a internet" "OFFLINE", cl.cache, 0, []⟩ ∧
    (jsTrim term ≠ "" → searchProjects cl now tr term =
      .ok ⟨.failure "Sin conexión a internet" "OFFLINE", cl.cache, 0, []⟩) ∧
    (pid ≠ "" → getProjectById cl now tr pid =
      .ok ⟨.failure "Sin conexión a internet" "OFFLINE", cl.cache, 0, []⟩) ∧
    (validateProjectData pd true = [] → createProject cl now tr pd =
      .ok ⟨.failure "Sin conexión a internet" "OFFLINE", cl.cache, 0, []⟩) ∧
    (pid ≠ "" → validateProjectData pd false = [] → updateProject cl now tr pid pd =
      .ok ⟨.failure "Sin conexión a internet" "OFFLINE", cl.cache, 0, []⟩) ∧
    (pid ≠ "" → deleteProject cl now tr pid =
      .ok ⟨.failure "Sin conexión a internet" "OFFLINE", cl.cache, 0, []⟩) := by
  have hmr : ∀ (ep2 m2 : String) (d2 : Option String) (uc2 sr2 : Bool),
      makeRequest cl.isOnline cl.cache now tr ep2 m2 d2 uc2 sr2 =
        .ok ⟨.failure "Sin conexión a internet" "OFFLINE", cl.cache, 0, []⟩ := by
    intro ep2 m2 d2 uc2 sr2
    rw [hoff]
    rfl
  refine ⟨hmr ep m d uc sr, hmr _ _ _ _ _, hmr _ _ _ _ _, ?_, ?_, ?_, ?_, ?_⟩
  · intro ht
    have hb : (jsTrim term == "") = false := beq_eq_false_iff_ne.mpr ht
    simp only [searchProjects, hb, Bool.false_eq_true, if_false]
    exact hmr _ _ _ _ _
  · intro hp
    have hb : (pid == "") = false := beq_eq_false_iff_ne.mpr hp
    simp only [getProjectById, hb, Bool.false_eq_true, if_false]
    exact hmr _ _ _ _ _
  · intro hv
    simp only [createProject, hv, List.isEmpty_nil, if_true, hmr]
  · intro hp hv
    have hb : (pid == "") = false := beq_eq_false_iff_ne.mpr hp
    simp only [updateProject, hb, Bool.false_eq_true, if_false, hv, List.isEmpty_nil,
      if_true, hmr]
  · intro hp
    have hb : (pid == "") = false := beq_eq_false_iff_ne.mpr hp
    simp only [deleteProject, hb, Bool.false_eq_true, if_false, hmr]

/-- A project payload passing every local validation. -/
def validPD : ProjectData :=
  ⟨some "Proyecto", some "desc", some "2025-01-01", some "2025-06-30", some "en_proceso",
   some ["1"]⟩

/-- C4, checked at a concrete offline client. -/
theorem C4_offline_failfast_witness :
    getAllProjects ⟨false, []⟩ 0 (fun _ => .abort) =
      .ok ⟨.failure "Sin conexión a internet" "OFFLINE", [], 0, []⟩ ∧
    createProject ⟨false, []⟩ 0 (fun _ => .abort) validPD =
      .ok ⟨.failure "Sin conexión a internet" "OFFLINE", [], 0, []⟩ ∧
    deleteProject ⟨false, []⟩ 0 (fun _ => .abort) "5" =
      .ok ⟨.failure "Sin conexión a internet" "OFFLINE", [], 0, []⟩ := by
  have h := C4_offline_failfast ⟨false, []⟩ 0 (fun _ => .abort) "/x" "GET" "x" "5" none
    false false validPD rfl
  exact ⟨h.2.2.1, h.2.2.2.2.2.1 (by decide), h.2.2.2.2.2.2.2 (by decide)⟩

/-- C2: with retries enabled (3 attempts, base delay 1000 ms) and retryable
failures: attempt 1 runs with no preceding sleep; the sleeps between attempts
are `retryDelay * 1` then `retryDelay * 2` (non-decreasing); three retryable
failures exhaust the budget with exactly 3 transport invocations and surface
the last classified failure; a success on the third attempt also makes
exactly 3 invocations and returns the success envelope; a success on the
first attempt makes exactly one invocation with no sleeps. -/
theorem C2_linear_backoff (tr : Nat → FetchOutcome) (e1 e2 e3 : JsError) (d : String) (s : Nat) :
    (Retryable (tr 1) → Retryable (tr 2) → Retryable (tr 3) →
      attemptOf (tr 1) = .thrown e1 → attemptOf (tr 2) = .thrown e2 →
      attemptOf (tr 3) = .thrown e3 →
      makeRequestWithRetry tr false =
        .ok ⟨handleRequestError e3, API_CONFIG.retryAttempts,
             [API_CONFIG.retryDelay * 1, API_CONFIG.retryDelay * 2]⟩ ∧
      API_CONFIG.retryDelay * 1 ≤ API_CONFIG.retryDelay * 2) ∧
    (Retryable (tr 1) → Retryable (tr 2) →
      attemptOf (tr 1) = .thrown e1 → attemptOf (tr 2) = .thrown e2 →
      attemptOf (tr 3) = .ok d s →
      makeRequestWithRetry tr false =
        .ok ⟨.success d s, API_CONFIG.retryAttempts,
             [API_CONFIG.retryDelay * 1, API_CONFIG.retryDelay * 2]⟩) ∧
    (attemptOf (tr 1) = .ok d s →
      makeRequestWithRetry tr false = .ok ⟨.success d s, 1, []⟩) := by
  refine ⟨?_, ?_, ?_⟩
  · intro _ _ _ h1 h2 h3
    exact ⟨by rw [mkRWR_fail3 h1 h2 h3]; rfl, by decide⟩
  · intro _ _ h1 h2 h3
    rw [mkRWR_failfail_ok h1 h2 h3]
    rfl
  · intro h1
    rw [mkRWR_ok1 false h1]

/-- The timeout abort error thrown inside the retry loop. -/
def abortError : JsError := ⟨"AbortError", "The operation was aborted."⟩

/-- C2, checked at concrete transports: three timeouts exhaust the budget;
two timeouts then a success return the success envelope after exactly 3
invocations with sleeps 1000 then 2000 ms; an immediate success makes one
invocation. -/
theorem C2_linear_backoff_witness :
    makeRequestWithRetry (fun _ => .abort) false =
      .ok ⟨.failure "Timeout: La petición tardó demasiado tiempo" "TIMEOUT", 3, [1000, 2000]⟩ ∧
    makeRequestWithRetry (fun n => if n < 3 then .abort else .response 200 "OK" (.ok "[]")) false =
      .ok ⟨.success "[]" 200, 3, [1000, 2000]⟩ ∧
    makeRequestWithRetry (fun _ => .response 200 "OK" (.ok "[]")) false =
      .ok ⟨.success "[]" 200, 1, []⟩ := by
  refine ⟨?_, ?_, ?_⟩
  · have h := ((C2_linear_backoff (fun _ => .abort) abortError abortError abortError "" 0).1
      (Or.inl rfl) (Or.inl rfl) (Or.inl rfl) rfl rfl rfl).1
    rw [h]; decide
  · have h := (C2_linear_backoff (fun n => if n < 3 then .abort else .response 200 "OK" (.ok "[]"))
      abortError abortError abortError "[]" 200).2.1
      (Or.inl (by decide)) (Or.inl (by decide)) (by decide) (by decide) (by decide)
    rw [h]; decide
  · exact (C2_linear_backoff (fun _ => .response 200 "OK" (.ok "[]"))
      abortError abortError abortError "[]" 200).2.2 rfl

/-! Helper lemmas: GET scenarios of `makeRequest`. -/

lemma makeRequest_nocache_ok {c : Cache} {now : Nat} {tr : Nat → FetchOutcome}
    {ep m : String} {dta : Option String} {sr : Bool} {d : String} {s : Nat}
    (hok : attemptOf (tr 1) = .ok d s) :
    makeRequest true c now tr ep m dta false sr = .ok ⟨.success d s, c, 1, []⟩ := by
  have hmiss : (if false = true then getCachedData c (generateCacheKey ep m dta) now
                else (none, c)) = ((none : Option Envelope), c) := rfl
  rw [makeRequest_net hmiss (mkRWR_ok1 sr hok)]
  rfl

lemma makeRequest_get_miss_ok {c c1 : Cache} {now : Nat} {tr : Nat → FetchOutcome}
    {ep : String} {dta : Option String} {sr : Bool} {d : String} {s : Nat}
    (hmiss : getCachedData c (generateCacheKey ep "GET" dta) now = (none, c1))
    (hok : attemptOf (tr 1) = .ok d s) :
    makeRequest true c now tr ep "GET" dta true sr =
      .ok ⟨.success d s, setCachedData c1 (generateCacheKey ep "GET" dta) (.success d s) now,
           1, []⟩ := by
  have hmiss2 : (if true = true then getCachedData c (generateCacheKey ep "GET" dta) now
                 else (none, c)) = ((none : Option Envelope), c1) := by simpa using hmiss
  rw [makeRequest_net hmiss2 (mkRWR_ok1 sr hok)]
  rfl

lemma str_append_assoc (a b c : String) : (a ++ b) ++ c = a ++ (b ++ c) := by
  apply eq_of_toList_eq
  simp [toList_app, List.append_assoc]

lemma slash_projects_split (x : String) :
    ("/projects/" ++ x) = "/projects" ++ ("/" ++ x) := by
  rw [← str_append_assoc]
  rfl

lemma toList_GET : ("GET" : String).toList = ['G', 'E', 'T'] := rfl

lemma toList_braces : ("\x7b\x7d" : String).toList = ['\x7b', '\x7d'] := rfl

lemma includes_projects_of_app (ep : String) :
    strIncludes (generateCacheKey ("/projects" ++ ep) "GET" none) "/projects" = true := by
  refine strIncludes_of_decomp ['G', 'E', 'T', '_'] (ep.toList ++ ['_', '\x7b', '\x7d']) ?_
  simp [generateCacheKey, jsonOf, toList_app, toList_GET, toList_us, toList_braces,
    List.append_assoc]

lemma includes_projects_projKey (x : String) :
    strIncludes (generateCacheKey ("/projects/" ++ x) "GET" none) "/projects" = true := by
  rw [slash_projects_split x]
  exact includes_projects_of_app ("/" ++ x)

lemma clearProjectCache_lookup_none {k : String} (c : Cache) (pid : String)
    (h : strIncludes k "/projects" = true) :
    List.lookup k (clearProjectCache c pid) = none := by
  apply lookup_filter_none
  intro e
  simp [h]

lemma clearProjectsCache_lookup_none {k : String} (c : Cache)
    (h : strIncludes k "/projects" = true) :
    List.lookup k (clearProjectsCache c) = none := by
  apply lookup_filter_none
  intro e
  simp [h]

lemma clearProjectCache_lookup_same {k : String} (c : Cache) (pid : String)
    (h : strIncludes k "/projects" = false) :
    List.lookup k (clearProjectCache c pid) = List.lookup k c := by
  apply lookup_filter_same
  intro e
  have h2 : strIncludes k ("/projects/" ++ pid) = false := by
    cases hx : strIncludes k ("/projects/" ++ pid)
    · rfl
    · exfalso
      rw [slash_projects_split pid] at hx
      have h3 := strIncludes_app_left hx
      rw [h] at h3
      cases h3
  simp [h, h2]

lemma clearProjectsCache_lookup_same {k : String} (c : Cache)
    (h : strIncludes k "/projects" = false) :
    List.lookup k (clearProjectsCache c) = List.lookup k c := by
  apply lookup_filter_same
  intro e
  simp [h]

/-! Helper lemmas: facade mutations on success. -/

lemma deleteProject_success {cl : Client} {now : Nat} {tr : Nat → FetchOutcome}
    {pid d : String} {s : Nat}
    (hon : cl.isOnline = true) (hp : (pid == "") = false)
    (hok : attemptOf (tr 1) = .ok d s) :
    deleteProject cl now tr pid =
      .ok ⟨.success d s, clearProjectCache cl.cache pid, 1, []⟩ := by
  unfold deleteProject
  rw [hon]
  simp only [hp, Bool.false_eq_true, if_false]
  rw [makeRequest_nocache_ok hok]

lemma updateProject_success {cl : Client} {now : Nat} {tr : Nat → FetchOutcome}
    {pid : String} {pd : ProjectData} {d : String} {s : Nat}
    (hon : cl.isOnline = true) (hp : (pid == "") = false)
    (hv : (validateProjectData pd false).isEmpty = true)
    (hok : attemptOf (tr 1) = .ok d s) :
    updateProject cl now tr pid pd =
      .ok ⟨.success d s, clearProjectCache cl.cache pid, 1, []⟩ := by
  unfold updateProject
  rw [hon]
  simp only [hp, Bool.false_eq_true, if_false, hv, if_true]
  rw [makeRequest_nocache_ok hok]

lemma createProject_success {cl : Client} {now : Nat} {tr : Nat → FetchOutcome}
    {pd : ProjectData} {d : String} {s : Nat}
    (hon : cl.isOnline = true) (hv : (validateProjectData pd true).isEmpty = true)
    (hok : attemptOf (tr 1) = .ok d s) :
    createProject cl now tr pd =
      .ok ⟨.success d s, clearProjectsCache cl.cache, 1, []⟩ := by
  unfold createProject
  rw [hon]
  simp only [hv, if_true]
  rw [makeRequest_nocache_ok hok]

lemma getAllProjects_calls_pos (cl : Client) (now : Nat) (tr2 : Nat → FetchOutcome)
    (hon : cl.isOnline = true)
    (hmiss : List.lookup (generateCacheKey "/projects" "GET" none) cl.cache = none) :
    ∀ r, getAllProjects cl now tr2 = .ok r → 1 ≤ r.calls := by
  intro r hr
  unfold getAllProjects at hr
  rw [hon] at hr
  obtain ⟨⟨env, cls, dls⟩, hrr⟩ := makeRequestWithRetry_total tr2 false
  have hm2 : (if true = true then
      getCachedData cl.cache (generateCacheKey "/projects" "GET" none) now
             else (none, cl.cache)) = ((none : Option Envelope), cl.cache) := by
    simp [getCachedData_absent hmiss]
  rw [makeRequest_net hm2 hrr] at hr
  have hcalls : 1 ≤ cls := by
    have hrr2 : retryList tr2 API_CONFIG.retryDelay (1 :: [2, 3]) none = .ok ⟨env, cls, dls⟩ := by
      rw [show (1 :: [2, 3] : List Nat) =
        List.range' 1 (if false = true then 1 else API_CONFIG.retryAttempts) from rfl]
      exact hrr
    exact retryList_calls_pos tr2 _ 1 [2, 3] none _ hrr2
  cases env with
  | success d2 s2 =>
    simp only [Except.ok.injEq] at hr
    rw [← hr]
    exact hcalls
  | failure msg code =>
    simp only [Except.ok.injEq] at hr
    rw [← hr]
    exact hcalls

/-- C5: cache reads within TTL of a write return exactly the stored payload;
reads after TTL treat the entry as absent and evict it; at the facade, a
repeated identical `getAllProjects` within TTL returns the cached envelope
with zero additional transport invocations, while a read past TTL evicts and
performs exactly one fresh network call. -/
theorem C5_cache_ttl :
    (∀ (c : Cache) (k : String) (v : Envelope) (t now : Nat), now - t ≤ CACHE_DURATION →
      getCachedData (setCachedData c k v t) k now = (some v, setCachedData c k v t)) ∧
    (∀ (c : Cache) (k : String) (en : CacheEntry) (now : Nat),
      List.lookup k c = some en → now - en.timestamp > CACHE_DURATION →
      getCachedData c k now = (none, eraseKey c k) ∧
      List.lookup k (eraseKey c k) = none) ∧
    (∀ (c : Cache) (now1 now2 : Nat) (tr tr2 : Nat → FetchOutcome) (d : String) (s : Nat),
      List.lookup (generateCacheKey "/projects" "GET" none) c = none →
      attemptOf (tr 1) = .ok d s →
      now2 - now1 ≤ CACHE_DURATION →
      getAllProjects ⟨true, c⟩ now1 tr =
        .ok ⟨.success d s,
             setCachedData c (generateCacheKey "/projects" "GET" none) (.success d s) now1,
             1, []⟩ ∧
      getAllProjects
          ⟨true, setCachedData c (generateCacheKey "/projects" "GET" none) (.success d s) now1⟩
          now2 tr2 =
        .ok ⟨.success d s,
             setCachedData c (generateCacheKey "/projects" "GET" none) (.success d s) now1,
             0, []⟩) ∧
    (∀ (c : Cache) (now1 now3 : Nat) (tr tr3 : Nat → FetchOutcome) (d d3 : String) (s s3 : Nat),
      List.lookup (generateCacheKey "/projects" "GET" none) c = none →
      attemptOf (tr 1) = .ok d s →
      now3 - now1 > CACHE_DURATION →
      attemptOf (tr3 1) = .ok d3 s3 →
      getAllProjects
          ⟨true, setCachedData c (generateCacheKey "/projects" "GET" none) (.success d s) now1⟩
          now3 tr3 =
        .ok ⟨.success d3 s3,
             setCachedData
               (eraseKey
                 (setCachedData c (generateCacheKey "/projects" "GET" none) (.success d s) now1)
                 (generateCacheKey "/projects" "GET" none))
               (generateCacheKey "/projects" "GET" none) (.success d3 s3) now3,
             1, []⟩) := by
  refine ⟨?_, ?_, ?_, ?_⟩
  · intro c k v t now h
    exact getCachedData_fresh (lookup_set_self c k v t) (by simpa using h)
  · intro c k en now h he
    exact ⟨getCachedData_expired h he, lookup_erase_self c k⟩
  · intro c now1 now2 tr tr2 d s hmiss hok httl
    constructor
    · unfold getAllProjects
      exact makeRequest_get_miss_ok (getCachedData_absent hmiss) hok
    · unfold getAllProjects
      exact makeRequest_hit
        (getCachedData_fresh (lookup_set_self c _ _ now1) (by simpa using httl))
  · intro c now1 now3 tr tr3 d d3 s s3 hmiss hok httl hok3
    unfold getAllProjects
    exact makeRequest_get_miss_ok
      (getCachedData_expired (lookup_set_self c _ _ now1) (by simpa using httl)) hok3

/-- C5, checked at a concrete run: a first read populates the cache, a second
read at the TTL boundary is served from cache with zero transport calls, and
a read one millisecond past TTL evicts and refetches with exactly one call. -/
theorem C5_cache_ttl_witness :
    getAllProjects ⟨true, []⟩ 0 (fun _ => .response 200 "OK" (.ok "[]")) =
      .ok ⟨.success "[]" 200,
           setCachedData [] (generateCacheKey "/projects" "GET" none) (.success "[]" 200) 0,
           1, []⟩ ∧
    getAllProjects
        ⟨true, setCachedData [] (generateCacheKey "/projects" "GET" none) (.success "[]" 200) 0⟩
        CACHE_DURATION (fun _ => .abort) =
      .ok ⟨.success "[]" 200,
           setCachedData [] (generateCacheKey "/projects" "GET" none) (.success "[]" 200) 0,
           0, []⟩ ∧
    getAllProjects
        ⟨true, setCachedData [] (generateCacheKey "/projects" "GET" none) (.success "[]" 200) 0⟩
        (CACHE_DURATION + 1) (fun _ => .response 200 "OK" (.ok "[2]")) =
      .ok ⟨.success "[2]" 200,
           setCachedData
             (eraseKey
               (setCachedData [] (generateCacheKey "/projects" "GET" none) (.success "[]" 200) 0)
               (generateCacheKey "/projects" "GET" none))
             (generateCacheKey "/projects" "GET" none) (.success "[2]" 200) (CACHE_DURATION + 1),
           1, []⟩ := by
  have h1 := (C5_cache_ttl.2.2.1 [] 0 CACHE_DURATION
    (fun _ => .response 200 "OK" (.ok "[]")) (fun _ => .abort) "[]" 200
    rfl rfl (by decide))
  have h2 := C5_cache_ttl.2.2.2 [] 0 (CACHE_DURATION + 1)
    (fun _ => .response 200 "OK" (.ok "[]")) (fun _ => .response 200 "OK" (.ok "[2]"))
    "[]" "[2]" 200 200 rfl rfl (by decide) rfl
  exact ⟨h1.1, h1.2, h2⟩

/-- C6: a successful `deleteProject` or `updateProject` of project `N` evicts
both the full project-list entry and the single-project entry of `N` (and a
successful `createProject` evicts the list entry), so a subsequent
`getAllProjects` cannot be served from cache and performs at least one fresh
transport invocation. -/
theorem C6_mutation_invalidates :
    (∀ (c : Cache) (now : Nat) (tr tr2 : Nat → FetchOutcome) (pid d : String) (s : Nat),
      pid ≠ "" → attemptOf (tr 1) = .ok d s →
      deleteProject ⟨true, c⟩ now tr pid =
        .ok ⟨.success d s, clearProjectCache c pid, 1, []⟩ ∧
      List.lookup (generateCacheKey "/projects" "GET" none) (clearProjectCache c pid) = none ∧
      List.lookup (generateCacheKey ("/projects/" ++ encodeURIComponent pid) "GET" none)
        (clearProjectCache c pid) = none ∧
      (∀ r, getAllProjects ⟨true, clearProjectCache c pid⟩ now tr2 = .ok r → 1 ≤ r.calls)) ∧
    (∀ (c : Cache) (now : Nat) (tr tr2 : Nat → FetchOutcome) (pid : String) (pd : ProjectData)
        (d : String) (s : Nat),
      pid ≠ "" → (validateProjectData pd false).isEmpty = true → attemptOf (tr 1) = .ok d s →
      updateProject ⟨true, c⟩ now tr pid pd =
        .ok ⟨.success d s, clearProjectCache c pid, 1, []⟩ ∧
      List.lookup (generateCacheKey "/projects" "GET" none) (clearProjectCache c pid) = none ∧
      List.lookup (generateCacheKey ("/projects/" ++ encodeURIComponent pid) "GET" none)
        (clearProjectCache c pid) = none ∧
      (∀ r, getAllProjects ⟨true, clearProjectCache c pid⟩ now tr2 = .ok r → 1 ≤ r.calls)) ∧
    (∀ (c : Cache) (now : Nat) (tr tr2 : Nat → FetchOutcome) (pd : ProjectData)
        (d : String) (s : Nat),
      (validateProjectData pd true).isEmpty = true → attemptOf (tr 1) = .ok d s →
      createProject ⟨true, c⟩ now tr pd =
        .ok ⟨.success d s, clearProjectsCache c, 1, []⟩ ∧
      List.lookup (generateCacheKey "/projects" "GET" none) (clearProjectsCache c) = none ∧
      (∀ r, getAllProjects ⟨true, clearProjectsCache c⟩ now tr2 = .ok r → 1 ≤ r.calls)) := by
  have hlist : strIncludes (generateCacheKey "/projects" "GET" none) "/projects" = true := by
    decide
  refine ⟨?_, ?_, ?_⟩
  · intro c now tr tr2 pid d s hp hok
    have hb : (pid == "") = false := beq_eq_false_iff_ne.mpr hp
    refine ⟨deleteProject_success rfl hb hok,
      clearProjectCache_lookup_none c pid hlist,
      clearProjectCache_lookup_none c pid (includes_projects_projKey _),
      getAllProjects_calls_pos _ now tr2 rfl (clearProjectCache_lookup_none c pid hlist)⟩
  · intro c now tr tr2 pid pd d s hp hv hok
    have hb : (pid == "") = false := beq_eq_false_iff_ne.mpr hp
    refine ⟨updateProject_success rfl hb hv hok,
      clearProjectCache_lookup_none c pid hlist,
      clearProjectCache_lookup_none c pid (includes_projects_projKey _),
      getAllProjects_calls_pos _ now tr2 rfl (clearProjectCache_lookup_none c pid hlist)⟩
  · intro c now tr tr2 pd d s hv hok
    refine ⟨createProject_success rfl hv hok,
      clearProjectsCache_lookup_none c hlist,
      getAllProjects_calls_pos _ now tr2 rfl (clearProjectsCache_lookup_none c hlist)⟩

/-- C6, checked at a concrete run: deleting project 7 with both the list and
the detail entry cached evicts both; a later `getAllProjects` misses the
cache and refetches. -/
theorem C6_mutation_invalidates_witness :
    deleteProject
        ⟨true, [(generateCacheKey "/projects" "GET" none, ⟨.success "[]" 200, 0⟩),
                (generateCacheKey ("/projects/" ++ encodeURIComponent "7") "GET" none,
                 ⟨.success "\x7b\x7d" 200, 0⟩)]⟩
        5 (fun _ => .response 200 "OK" (.ok "\x7b\x7d")) "7" =
      .ok ⟨.success "\x7b\x7d" 200, [], 1, []⟩ ∧
    getAllProjects ⟨true, []⟩ 6 (fun _ => .response 200 "OK" (.ok "[]")) =
      .ok ⟨.success "[]" 200,
           [(generateCacheKey "/projects" "GET" none, ⟨.success "[]" 200, 6⟩)], 1, []⟩ := by
  have h := (C6_mutation_invalidates.1
    [(generateCacheKey "/projects" "GET" none, ⟨.success "[]" 200, 0⟩),
     (generateCacheKey ("/projects/" ++ encodeURIComponent "7") "GET" none,
      ⟨.success "\x7b\x7d" 200, 0⟩)]
    5 (fun _ => .response 200 "OK" (.ok "\x7b\x7d")) (fun _ => .abort) "7" "\x7b\x7d" 200
    (by decide) rfl).1
  constructor
  · rw [h]; decide
  · decide

/-- C10: after any successful mutating operation, the cache invalidation in
force removes every entry whose key contains the substring `/projects` —
search results and unrelated detail entries included — and leaves every entry
whose key does not contain `/projects` untouched. -/
theorem C10_invalidation_frame :
    (∀ (c : Cache) (now : Nat) (tr : Nat → FetchOutcome) (pid d : String) (s : Nat),
      pid ≠ "" → attemptOf (tr 1) = .ok d s →
      ∀ k : String,
        (strIncludes k "/projects" = true →
          List.lookup k (clearProjectCache c pid) = none) ∧
        (strIncludes k "/projects" = false →
          List.lookup k (clearProjectCache c pid) = List.lookup k c) ∧
        deleteProject ⟨true, c⟩ now tr pid =
          .ok ⟨.success d s, clearProjectCache c pid, 1, []⟩) ∧
    (∀ (c : Cache) (now : Nat) (tr : Nat → FetchOutcome) (pd : ProjectData)
        (d : String) (s : Nat),
      (validateProjectData pd true).isEmpty = true → attemptOf (tr 1) = .ok d s →
      ∀ k : String,
        (strIncludes k "/projects" = true →
          List.lookup k (clearProjectsCache c) = none) ∧
        (strIncludes k "/projects" = false →
          List.lookup k (clearProjectsCache c) = List.lookup k c) ∧
        createProject ⟨true, c⟩ now tr pd =
          .ok ⟨.success d s, clearProjectsCache c, 1, []⟩) ∧
    (∀ (c : Cache) (now : Nat) (tr : Nat → FetchOutcome) (pid : String) (pd : ProjectData)
        (d : String) (s : Nat),
      pid ≠ "" → (validateProjectData pd false).isEmpty = true → attemptOf (tr 1) = .ok d s →
      ∀ k : String,
        (strIncludes k "/projects" = true →
          List.lookup k (clearProjectCache c pid) = none) ∧
        (strIncludes k "/projects" = false →
          List.lookup k (clearProjectCache c pid) = List.lookup k c) ∧
        updateProject ⟨true, c⟩ now tr pid pd =
          .ok ⟨.success d s, clearProjectCache c pid, 1, []⟩) := by
  refine ⟨?_, ?_, ?_⟩
  · intro c now tr pid d s hp hok k
    exact ⟨clearProjectCache_lookup_none c pid,
      clearProjectCache_lookup_same c pid,
      deleteProject_success rfl (beq_eq_false_iff_ne.mpr hp) hok⟩
  · intro c now tr pd d s hv hok k
    exact ⟨clearProjectsCache_lookup_none c,
      clearProjectsCache_lookup_same c,
      createProject_success rfl hv hok⟩
  · intro c now tr pid pd d s hp hv hok k
    exact ⟨clearProjectCache_lookup_none c pid,
      clearProjectCache_lookup_same c pid,
      updateProject_success rfl (beq_eq_false_iff_ne.mpr hp) hv hok⟩

/-- C10, checked at a concrete run: deleting project 7 removes the list entry
and a search entry (both contain `/projects`) and leaves the health entry —
whose key does not — untouched. -/
theorem C10_invalidation_frame_witness :
    List.lookup (generateCacheKey "/projects" "GET" none)
      (clearProjectCache
        [(generateCacheKey "/projects" "GET" none, ⟨.success "[]" 200, 0⟩),
         (generateCacheKey "/projects/search?q=x" "GET" none, ⟨.success "[]" 200, 0⟩),
         (generateCacheKey "/health" "GET" none, ⟨.success "ok" 200, 0⟩)] "7") = none ∧
    List.lookup (generateCacheKey "/projects/search?q=x" "GET" none)
      (clearProjectCache
        [(generateCacheKey "/projects" "GET" none, ⟨.success "[]" 200, 0⟩),
         (generateCacheKey "/projects/search?q=x" "GET" none, ⟨.success "[]" 200, 0⟩),
         (generateCacheKey "/health" "GET" none, ⟨.success "ok" 200, 0⟩)] "7") = none ∧
    List.lookup (generateCacheKey "/health" "GET" none)
      (clearProjectCache
        [(generateCacheKey "/projects" "GET" none, ⟨.success "[]" 200, 0⟩),
         (generateCacheKey "/projects/search?q=x" "GET" none, ⟨.success "[]" 200, 0⟩),
         (generateCacheKey "/health" "GET" none, ⟨.success "ok" 200, 0⟩)] "7") =
      some ⟨.success "ok" 200, 0⟩ := by
  have h := C10_invalidation_frame.1
    [(generateCacheKey "/projects" "GET" none, ⟨.success "[]" 200, 0⟩),
     (generateCacheKey "/projects/search?q=x" "GET" none, ⟨.success "[]" 200, 0⟩),
     (generateCacheKey "/health" "GET" none, ⟨.success "ok" 200, 0⟩)]
    0 (fun _ => .response 200 "OK" (.ok "\x7b\x7d")) "7" "\x7b\x7d" 200 (by decide) rfl
  refine ⟨(h _).1 (by decide), (h _).1 (by decide), ?_⟩
  rw [(h _).2.1 (by decide)]
  decide

/-! Helper lemmas: local validation failures. -/

lemma isEmpty_app (a b : List String) : (a ++ b).isEmpty = (a.isEmpty && b.isEmpty) := by
  cases a <;> cases b <;> simp

lemma createProject_invalid {cl : Client} {now : Nat} {tr : Nat → FetchOutcome}
    {pd : ProjectData} (h : (validateProjectData pd true).isEmpty = false) :
    createProject cl now tr pd =
      .ok ⟨.failure ("Datos inválidos: " ++ String.intercalate ", " (validateProjectData pd true))
            "VALIDATION_ERROR", cl.cache, 0, []⟩ := by
  unfold createProject
  simp only [h, Bool.false_eq_true, if_false]

lemma updateProject_invalid {cl : Client} {now : Nat} {tr : Nat → FetchOutcome}
    {pid : String} {pd : ProjectData}
    (hp : (pid == "") = false) (h : (validateProjectData pd false).isEmpty = false) :
    updateProject cl now tr pid pd =
      .ok ⟨.failure ("Datos inválidos: " ++ String.intercalate ", " (validateProjectData pd false))
            "VALIDATION_ERROR", cl.cache, 0, []⟩ := by
  unfold updateProject
  simp only [hp, Bool.false_eq_true, if_false, h]

lemma validate_name_missing {pd : ProjectData} (h : pd.name = none) :
    (validateProjectData pd true).isEmpty = false := by
  simp [validateProjectData, isEmpty_app, h]

lemma validate_name_blank {pd : ProjectData} {s : String}
    (hn : pd.name = some s) (hb : (jsTrim s == "") = true) :
    ∀ b, (validateProjectData pd b).isEmpty = false := by
  intro b
  simp [validateProjectData, isEmpty_app, hn, hb]

lemma validate_name_long {pd : ProjectData} {s : String}
    (hn : pd.name = some s) (hlen : (jsTrim s).length > 100) :
    ∀ b, (validateProjectData pd b).isEmpty = false := by
  intro b
  have hb : (jsTrim s == "") = false := by
    cases hx : (jsTrim s == "")
    · rfl
    · exfalso
      have he : jsTrim s = "" := eq_of_beq hx
      rw [he] at hlen
      simp at hlen
  simp [validateProjectData, isEmpty_app, hn, hb, hlen]

lemma validate_dates_missing {pd : ProjectData}
    (h : strFalsy pd.startDate = true ∨ strFalsy pd.endDate = true) :
    (validateProjectData pd true).isEmpty = false := by
  rcases h with h | h <;> simp [validateProjectData, isEmpty_app, h]

lemma dateNum_ne_blank {ss : String} {sv : Nat} (hsv : dateNum ss = some sv) :
    (ss == "") = false := by
  cases hx : (ss == "")
  · rfl
  · exfalso
    have he : ss = "" := eq_of_beq hx
    rw [he, show dateNum "" = none from rfl] at hsv
    cases hsv

lemma validate_date_order {pd : ProjectData} {ss es : String} {sv ev : Nat}
    (hs : pd.startDate = some ss) (he : pd.endDate = some es)
    (hsv : dateNum ss = some sv) (hev : dateNum es = some ev) (hle : ev ≤ sv) :
    ∀ b, (validateProjectData pd b).isEmpty = false := by
  intro b
  have hss := dateNum_ne_blank hsv
  have hes := dateNum_ne_blank hev
  simp [validateProjectData, isEmpty_app, hs, he, strFalsy, hss, hes, hsv, hev, hle]

lemma validate_desc_long {pd : ProjectData} {ds : String}
    (hd : pd.description = some ds) (hl : ds.length > 500) :
    ∀ b, (validateProjectData pd b).isEmpty = false := by
  intro b
  simp [validateProjectData, isEmpty_app, hd, hl]

lemma validate_users_many {pd : ProjectData} {us : List String}
    (hu : pd.users = some us) (hl : us.length > 7) :
    ∀ b, (validateProjectData pd b).isEmpty = false := by
  intro b
  simp [validateProjectData, isEmpty_app, hu, hl]

/-- The project payload of the C7 counterexample: a 101-character name whose
final character is a space. -/
def paddedName : String := String.mk (List.replicate 100 'a') ++ " "

/-- C7 counterexample: `createProject` with a 101-character name — longer
than 100 characters, so the claim demands `VALIDATION_ERROR` with zero
transport invocations — passes validation, because the source checks the
length of the *trimmed* name, and proceeds to the network: one transport
invocation and a success envelope. -/
theorem C7_counterexample :
    paddedName.length = 101 ∧
    createProject ⟨true, []⟩ 0 (fun _ => .response 201 "Created" (.ok "\x7b\x7d"))
        ⟨some paddedName, some "d", some "2025-01-01", some "2025-06-30", some "en_proceso",
         some ["1"]⟩ =
      .ok ⟨.success "\x7b\x7d" 201, [], 1, []⟩ ∧
    (1 : Nat) ≠ 0 :=
  ⟨by decide, by decide, by decide⟩

/-- C7 amended: every listed validation violation — with "name longer than
100 characters" read as "name whose trimmed length exceeds 100 characters" —
yields the `VALIDATION_ERROR` envelope with zero transport invocations and an
unchanged cache: missing or blank name on creation, missing start or end date
on creation, end date not later than start date (create and update), trimmed
name longer than 100, description longer than 500, more than 7 assigned
users, and a missing project id for get, update and delete. -/
theorem C7_amended :
    (∀ (cl : Client) (now : Nat) (tr : Nat → FetchOutcome) (pd : ProjectData),
      (pd.name = none ∨ ∃ s, pd.name = some s ∧ jsTrim s = "") →
      ∃ msg, createProject cl now tr pd =
        .ok ⟨.failure msg "VALIDATION_ERROR", cl.cache, 0, []⟩) ∧
    (∀ (cl : Client) (now : Nat) (tr : Nat → FetchOutcome) (pd : ProjectData),
      strFalsy pd.startDate = true ∨ strFalsy pd.endDate = true →
      ∃ msg, createProject cl now tr pd =
        .ok ⟨.failure msg "VALIDATION_ERROR", cl.cache, 0, []⟩) ∧
    (∀ (cl : Client) (now : Nat) (tr : Nat → FetchOutcome) (pd : ProjectData)
        (ss es : String) (sv ev : Nat),
      pd.startDate = some ss → pd.endDate = some es →
      dateNum ss = some sv → dateNum es = some ev → ev ≤ sv →
      (∃ msg, createProject cl now tr pd =
        .ok ⟨.failure msg "VALIDATION_ERROR", cl.cache, 0, []⟩) ∧
      (∀ pid, pid ≠ "" → ∃ msg, updateProject cl now tr pid pd =
        .ok ⟨.failure msg "VALIDATION_ERROR", cl.cache, 0, []⟩)) ∧
    (∀ (cl : Client) (now : Nat) (tr : Nat → FetchOutcome) (pd : ProjectData) (s : String),
      pd.name = some s → (jsTrim s).length > 100 →
      (∃ msg, createProject cl now tr pd =
        .ok ⟨.failure msg "VALIDATION_ERROR", cl.cache, 0, []⟩) ∧
      (∀ pid, pid ≠ "" → ∃ msg, updateProject cl now tr pid pd =
        .ok ⟨.failure msg "VALIDATION_ERROR", cl.cache, 0, []⟩)) ∧
    (∀ (cl : Client) (now : Nat) (tr : Nat → FetchOutcome) (pd : ProjectData) (ds : String),
      pd.description = some ds → ds.length > 500 →
      (∃ msg, createProject cl now tr pd =
        .ok ⟨.failure msg "VALIDATION_ERROR", cl.cache, 0, []⟩) ∧
      (∀ pid, pid ≠ "" → ∃ msg, updateProject cl now tr pid pd =
        .ok ⟨.failure msg "VALIDATION_ERROR", cl.cache, 0, []⟩)) ∧
    (∀ (cl : Client) (now : Nat) (tr : Nat → FetchOutcome) (pd : ProjectData)
        (us : List String),
      pd.users = some us → us.length > 7 →
      (∃ msg, createProject cl now tr pd =
        .ok ⟨.failure msg "VALIDATION_ERROR", cl.cache, 0, []⟩) ∧
      (∀ pid, pid ≠ "" → ∃ msg, updateProject cl now tr pid pd =
        .ok ⟨.failure msg "VALIDATION_ERROR", cl.cache, 0, []⟩)) ∧
    (∀ (cl : Client) (now : Nat) (tr : Nat → FetchOutcome) (pd : ProjectData),
      getProjectById cl now tr "" =
        .ok ⟨.failure "ID de proyecto requerido" "VALIDATION_ERROR", cl.cache, 0, []⟩ ∧
      updateProject cl now tr "" pd =
        .ok ⟨.failure "ID de proyecto requerido" "VALIDATION_ERROR", cl.cache, 0, []⟩ ∧
      deleteProject cl now tr "" =
        .ok ⟨.failure "ID de proyecto requerido" "VALIDATION_ERROR", cl.cache, 0, []⟩) := by
  refine ⟨?_, ?_, ?_, ?_, ?_, ?_, ?_⟩
  · intro cl now tr pd h
    rcases h with h | ⟨s, hn, hb⟩
    · exact ⟨_, createProject_invalid (validate_name_missing h)⟩
    · exact ⟨_, createProject_invalid (validate_name_blank hn (beq_iff_eq.mpr hb) true)⟩
  · intro cl now tr pd h
    exact ⟨_, createProject_invalid (validate_dates_missing h)⟩
  · intro cl now tr pd ss es sv ev hs he hsv hev hle
    refine ⟨⟨_, createProject_invalid (validate_date_order hs he hsv hev hle true)⟩, ?_⟩
    intro pid hp
    exact ⟨_, updateProject_invalid (beq_eq_false_iff_ne.mpr hp)
      (validate_date_order hs he hsv hev hle false)⟩
  · intro cl now tr pd s hn hlen
    refine ⟨⟨_, createProject_invalid (validate_name_long hn hlen true)⟩, ?_⟩
    intro pid hp
    exact ⟨_, updateProject_invalid (beq_eq_false_iff_ne.mpr hp) (validate_name_long hn hlen false)⟩
  · intro cl now tr pd ds hd hl
    refine ⟨⟨_, createProject_invalid (validate_desc_long hd hl true)⟩, ?_⟩
    intro pid hp
    exact ⟨_, updateProject_invalid (beq_eq_false_iff_ne.mpr hp) (validate_desc_long hd hl false)⟩
  · intro cl now tr pd us hu hl
    refine ⟨⟨_, createProject_invalid (validate_users_many hu hl true)⟩, ?_⟩
    intro pid hp
    exact ⟨_, updateProject_invalid (beq_eq_false_iff_ne.mpr hp) (validate_users_many hu hl false)⟩
  · intro cl now tr pd
    exact ⟨rfl, rfl, rfl⟩

/-- C7 amended, checked at concrete violating inputs: an empty name on
creation and an end date before the start date on update both fail locally
with zero transport invocations. -/
theorem C7_amended_witness :
    (∃ msg, createProject ⟨true, []⟩ 0 (fun _ => .abort)
        ⟨some "", some "x", none, some "2025-01-01", none, none⟩ =
      .ok ⟨.failure msg "VALIDATION_ERROR", [], 0, []⟩) ∧
    (∃ msg, updateProject ⟨true, []⟩ 0 (fun _ => .abort) "5"
        ⟨none, none, some "2024-06-01", some "2024-01-01", none, none⟩ =
      .ok ⟨.failure msg "VALIDATION_ERROR", [], 0, []⟩) := by
  constructor
  · exact C7_amended.1 ⟨true, []⟩ 0 (fun _ => .abort)
      ⟨some "", some "x", none, some "2025-01-01", none, none⟩
      (Or.inr ⟨"", rfl, by decide⟩)
  · exact (C7_amended.2.2.1 ⟨true, []⟩ 0 (fun _ => .abort)
      ⟨none, none, some "2024-06-01", some "2024-01-01", none, none⟩
      "2024-06-01" "2024-01-01" 20240601 20240101 rfl rfl (by decide) (by decide)
      (by decide)).2 "5" (by decide)

end GestorAPI
